import Mathlib

/-!
Verification development for the eval-dashboard repository.

The evaluation pipeline (src/core/evaluate.py), the LLM judge
(src/core/judge.py), the retrieval metrics (src/core/retrieval.py), the
drift analysis (src/core/db.py) and the alert fan-out
(src/core/drift_detector.py) are embedded shallowly: network calls,
the judge LLM and the embedding model are external collaborators, so they
enter as explicit outcome parameters, while every branch, loop and string
the repository code itself performs is translated directly.  Python floats
are modelled as rationals.
-/

namespace EvalDashboard

/-! ### String primitives

Python `"pat" in s` (substring test) and `str.lower()`, used by the retry
classifier in src/core/evaluate.py line 208. -/

/-- Whether `pat` is a prefix of `s`, on character lists. -/
def startsWithChars : List Char → List Char → Bool
  | [], _ => true
  | _ :: _, [] => false
  | a :: as, b :: bs => a == b && startsWithChars as bs

/-- Whether `pat` occurs as a contiguous substring of `s`, on character
lists: Python `pat in s`. -/
def hasSubChars (pat : List Char) : List Char → Bool
  | [] => startsWithChars pat []
  | b :: bs => startsWithChars pat (b :: bs) || hasSubChars pat bs

/-- Python `pat in s` on strings. -/
def pyContains (s pat : String) : Bool :=
  hasSubChars pat.data s.data

/-- Python `s.lower()` (ASCII case folding, as in the messages involved). -/
def pyLower (s : String) : String :=
  ⟨s.data.map Char.toLower⟩

/-! ### Judge (src/core/judge.py, score_answer)

The judge makes one HTTP call to the judge LLM and parses its JSON reply.
The call and the JSON parse are external collaborators; their combined
outcome is the `JudgeOutcome` the function branches on.  Lines 45-62:
an exception from requests.post, a non-200 status, a reply whose content
parses to a numeric score plus reasoning, or an unparsable content. -/

inductive JudgeOutcome where
  | exn (msg : String)
  | httpError (status : Nat) (body : String)
  | parsed (score : ℚ) (reasoning : String)
  | unparsable (content : String)
deriving DecidableEq

/-- Translation of score_answer: pattern per branch of judge.py 45-62.
The parsed score is returned verbatim (float(parsed.get("score", 0.0))). -/
def score_answer : JudgeOutcome → ℚ × String
  | .exn m => (0, "Exception: " ++ m)
  | .httpError status body =>
      (0, "HTTP " ++ toString status ++ ": " ++ body.take 200)
  | .parsed s r => (s, r)
  | .unparsable content => (0, "Invalid JSON from judge: " ++ content)

/-! #### Refined parse model of judge.py lines 53-59

The coarse JudgeOutcome above folds the whole parse into the oracle.  The
refined model below keeps only json.loads as the oracle and makes the
key lookups parsed.get("score", 0.0) / parsed.get("reasoning", "") and
the float() conversion — judge.py's own code — part of the model, so
replies that parse as JSON objects with missing keys are expressible. -/

/-- A value stored under the "score" key of the parsed reply, as the
float() call of judge.py line 57 treats it: either float() converts it to
a number (ints, floats, numeric strings, booleans) or float() raises. -/
inductive ScoreVal where
  | floatable (q : ℚ)
  | unfloatable
deriving DecidableEq

/-- The parsed JSON object of a judge reply: each of the two keys judge.py
reads is present or missing (a present reasoning value is carried as its
string rendering). -/
structure JudgeReplyObject where
  score : Option ScoreVal
  reasoning : Option String
deriving DecidableEq

/-- What json.loads makes of the reply content: a raising parse, or a
non-object value whose .get then raises, are both notObject — they land
in the inner except of judge.py line 58 — otherwise the parsed object. -/
inductive ContentParse where
  | notObject
  | object (o : JudgeReplyObject)
deriving DecidableEq

/-- The judge call's outcome with the reply content's parse carried
structurally, so lines 55-59 of judge.py are code of the model rather
than part of the outcome oracle. -/
inductive JudgeCallOutcome where
  | exn (msg : String)
  | httpError (status : Nat) (body : String)
  | reply (content : String) (p : ContentParse)
deriving DecidableEq

/-- Translation of judge.py lines 55-59: json.loads, then
float(parsed.get("score", 0.0)) and parsed.get("reasoning", "").  A
missing score key defaults silently to 0.0 and a missing reasoning key to
the empty string; only a json.loads or float() failure reaches the inner
except and its Invalid-JSON reasoning. -/
def parse_judge_reply (content : String) : ContentParse → ℚ × String
  | .notObject => (0, "Invalid JSON from judge: " ++ content)
  | .object o =>
      match o.score with
      | some (.floatable q) => (q, o.reasoning.getD "")
      | some .unfloatable => (0, "Invalid JSON from judge: " ++ content)
      | none => (0, o.reasoning.getD "")

/-- score_answer over the refined outcome: the same branches as
score_answer with the content parse spelled out. -/
def score_answer_parsed : JudgeCallOutcome → ℚ × String
  | .exn m => (0, "Exception: " ++ m)
  | .httpError status body =>
      (0, "HTTP " ++ toString status ++ ": " ++ body.take 200)
  | .reply content p => parse_judge_reply content p

/-- The coarse JudgeOutcome a refined outcome collapses to. -/
def toJudgeOutcome : JudgeCallOutcome → JudgeOutcome
  | .exn m => .exn m
  | .httpError status body => .httpError status body
  | .reply content .notObject => .unparsable content
  | .reply content (.object o) =>
      match o.score with
      | some (.floatable q) => .parsed q (o.reasoning.getD "")
      | some .unfloatable => .unparsable content
      | none => .parsed 0 (o.reasoning.getD "")

/-! ### Question evaluator (src/core/evaluate.py, evaluate_question)

One model call per attempt, retried on transient errors.  Lines 115-143
and 202-235.  The model call is an external collaborator: `attempts n` is
the outcome of the call made on loop iteration `n` (the OpenAI SDK raises
an exception for every transport or HTTP-status failure, carrying the
exception's type name and its rendered message). -/

structure Question where
  qid : String
  category : String
  input : String
  expected_output : String
  image_path : Option String
deriving DecidableEq

inductive AttemptOutcome where
  | success (content : String) (latency : ℚ)
  | failure (errType : String) (errMsg : String)
deriving DecidableEq

structure EvalResult where
  qid : String
  category : String
  input : String
  expected_output : String
  model_response : Option String
  score : ℚ
  reasoning : String
  latency : Option ℚ
  image_path : Option String
deriving DecidableEq

def MAX_RETRIES : Nat := 2

def BACKOFF_DELAYS : List Nat := [5, 10]

/-- Line 208: should_retry is true when the lowercased rendering of the
exception message has "timeout" or "connection" as a substring. -/
def should_retry (errMsg : String) : Bool :=
  pyContains (pyLower errMsg) "timeout" || pyContains (pyLower errMsg) "connection"

/-- The trace evaluate_question leaves: the returned result dict, how many
model calls were made, which backoff sleeps ran (in order), and the final
value of the loop's retry_count variable (printed inside the reasoning). -/
structure EvalTrace where
  result : EvalResult
  attemptsMade : Nat
  delays : List Nat
  retry_count : Nat
deriving DecidableEq

/-- The failure dict built after the loop (lines 225-235).  The returned
dict has no retry_count key; the count only appears inside reasoning. -/
def failResult (q : Question) (retryCount : Nat) (last : Option (String × String)) :
    EvalResult :=
  { qid := q.qid, category := q.category, input := q.input
    expected_output := q.expected_output
    model_response := none
    score := 0
    reasoning := "Failed after " ++ toString retryCount ++ " retries: "
      ++ (last.map Prod.fst).getD "NoneType" ++ ": " ++ (last.map Prod.snd).getD "None"
    latency := none
    image_path := q.image_path }

/-- The success dict built on a 200 reply (lines 179-200): the judged
score is stored verbatim; a retry marker is prefixed when retries ran. -/
def successResult (q : Question) (judge : String → ℚ × String)
    (content : String) (latency : ℚ) (retryCount : Nat) : EvalResult :=
  let sr := judge content
  { qid := q.qid, category := q.category, input := q.input
    expected_output := q.expected_output
    model_response := some content
    score := sr.1
    reasoning := if retryCount > 0 then
        "[Succeeded after " ++ toString retryCount ++ " retries] " ++ sr.2
      else sr.2
    latency := some latency
    image_path := q.image_path }

/-- The retry loop of evaluate_question (for attempt in range(MAX_RETRIES+1),
lines 143-222), fuel-indexed: fuel + attempt = MAX_RETRIES + 1 at entry.
A fuel of zero is the loop falling through with no break (unreachable from
the entry state, kept for totality): attemptsMade counts the model calls
performed. -/
def evalLoop (q : Question) (judge : String → ℚ × String)
    (attempts : Nat → AttemptOutcome) :
    Nat → Nat → Nat → Option (String × String) → List Nat → EvalTrace
  | 0, attempt, retryCount, last, delays =>
      { result := failResult q retryCount last
        attemptsMade := attempt, delays := delays, retry_count := retryCount }
  | fuel + 1, attempt, retryCount, last, delays =>
      match attempts attempt with
      | .success content latency =>
          { result := successResult q judge content latency retryCount
            attemptsMade := attempt + 1, delays := delays, retry_count := retryCount }
      | .failure ty msg =>
          if should_retry msg && decide (attempt < MAX_RETRIES) then
            evalLoop q judge attempts fuel (attempt + 1) (retryCount + 1)
              (some (ty, msg)) (delays ++ [BACKOFF_DELAYS.getD attempt 0])
          else
            { result := failResult q retryCount (some (ty, msg))
              attemptsMade := attempt + 1, delays := delays, retry_count := retryCount }

/-- Translation of evaluate_question (lines 108-235).  `encodeImage` is
the outcome of encode_image_to_base64 for a given path (None on failure);
`judgeReply` is the judge collaborator's outcome for a given model answer,
fed through score_answer exactly as line 184 does. -/
def evaluate_question (q : Question) (encodeImage : String → Option String)
    (attempts : Nat → AttemptOutcome) (judgeReply : String → JudgeOutcome) :
    EvalTrace :=
  match q.image_path with
  | some p =>
      match encodeImage p with
      | none =>
          { result :=
              { qid := q.qid, category := q.category, input := q.input
                expected_output := q.expected_output
                model_response := none
                score := 0
                reasoning := "Image file not found or unreadable: " ++ p
                latency := none
                image_path := some p }
            attemptsMade := 0, delays := [], retry_count := 0 }
      | some _ =>
          evalLoop q (fun c => score_answer (judgeReply c)) attempts
            (MAX_RETRIES + 1) 0 0 none []
  | none =>
      evalLoop q (fun c => score_answer (judgeReply c)) attempts
        (MAX_RETRIES + 1) 0 0 none []

/-! ### Drift analysis (src/core/db.py, get_drift_analysis, lines 321-348)

The persistence collaborator supplies the run history already ordered by
timestamp descending (the query orders by Run.timestamp.desc()), so a run
record here carries its accuracy and the list position encodes recency:
the head is the latest run. -/

structure Run where
  rid : Nat
  accuracy : ℚ
deriving DecidableEq

/-- Python max(runs, key=lambda r: r.accuracy): the first run of the list
whose accuracy is maximal (a later run replaces the current best only when
strictly greater). -/
def pyMax (first : Run) (rest : List Run) : Run :=
  rest.foldl (fun acc r => if r.accuracy > acc.accuracy then r else acc) first

/-- Translation of get_drift_analysis: (latest_run, best_run, has_drifted),
with accuracy_drop = best.accuracy - latest.accuracy and the strict
comparison accuracy_drop > threshold of line 343. -/
def get_drift_analysis (runs : List Run) (threshold : ℚ) :
    Option Run × Option Run × Bool :=
  match runs with
  | [] => (none, none, false)
  | latest :: rest =>
      let best := pyMax latest rest
      (some latest, some best, decide (best.accuracy - latest.accuracy > threshold))

/-- The accuracy_drop the analysis compares (line 342; DriftDetector's
check_drift recomputes the same best.accuracy - latest.accuracy). -/
def driftDrop (runs : List Run) : Option ℚ :=
  match runs with
  | [] => none
  | latest :: rest => some ((pyMax latest rest).accuracy - latest.accuracy)

/-! ### Retrieval metrics (src/core/retrieval.py, evaluate_retrieval,
lines 143-199)

The metric block is a pure function of the retrieved (chunk_id, score)
list, the ground-truth ids and top_k; the retrieval itself (lines 160-162)
supplies the list.  Python round(x, 4) is modelled on rationals. -/

/-- Python round(x, 4): the nearest multiple of 1/10000 (rounding is
half-up here; the code only ever rounds values that are not exact
half-way ties at the fourth decimal, where the two conventions agree). -/
def round4 (x : ℚ) : ℚ :=
  (⌊x * 10000 + 1/2⌋ : ℚ) / 10000

structure RetrievalMetrics where
  precision_at_k : ℚ
  recall_at_k : ℚ
  f1_at_k : ℚ
  mrr : ℚ
  avg_similarity_score : ℚ
  retrieved_chunk_ids : List ℤ
  true_positives : Nat
  total_relevant : Nat
deriving DecidableEq

/-- The MRR loop of lines 181-185: walk the retrieved ids with rank
starting at 1, stop at the first id in the relevant set. -/
def mrrLoop (relevant : Finset ℤ) : List ℤ → Nat → ℚ
  | [], _ => 0
  | cid :: rest, rank =>
      if cid ∈ relevant then 1 / (rank : ℚ) else mrrLoop relevant rest (rank + 1)

/-- Translation of evaluate_retrieval lines 162-199 given the retrieved
documents as (chunk_id, similarity score) pairs in rank order. -/
def evaluate_retrieval (retrieved : List (ℤ × ℚ)) (relevant_chunk_ids : List ℤ)
    (top_k : Nat) : RetrievalMetrics :=
  let retrieved_ids := retrieved.map Prod.fst
  let relevant_set := relevant_chunk_ids.toFinset
  let retrieved_set := retrieved_ids.toFinset
  let tp := (relevant_set ∩ retrieved_set).card
  let precision : ℚ := if top_k > 0 then (tp : ℚ) / (top_k : ℚ) else 0
  let recallV : ℚ :=
    if relevant_set.card > 0 then (tp : ℚ) / (relevant_set.card : ℚ) else 0
  let f1 : ℚ :=
    if precision + recallV > 0 then 2 * precision * recallV / (precision + recallV) else 0
  let mrrV := mrrLoop relevant_set retrieved_ids 1
  let avg : ℚ :=
    if retrieved.length > 0 then
      (retrieved.map Prod.snd).sum / (retrieved.length : ℚ)
    else 0
  { precision_at_k := round4 precision
    recall_at_k := round4 recallV
    f1_at_k := round4 f1
    mrr := round4 mrrV
    avg_similarity_score := round4 avg
    retrieved_chunk_ids := retrieved_ids
    true_positives := tp
    total_relevant := relevant_set.card }

/-! ### Retrieval ranking (src/core/retrieval.py, retrieve, lines 93-125)

Line 115: top_indices = np.argsort(similarities)[::-1][:top_k].  The
ascending argsort of a vector (deterministically, as numpy sorts these
small arrays) lists the indices in lexicographic order of
(similarity, index); the code then reverses that order and truncates. -/

/-- Index order underlying the ascending argsort: smaller similarity
first, equal similarities in index order. -/
def rankLE (sims : List ℚ) (i j : Nat) : Prop :=
  sims.getD i 0 < sims.getD j 0 ∨ (sims.getD i 0 = sims.getD j 0 ∧ i ≤ j)

instance (sims : List ℚ) (i j : Nat) : Decidable (rankLE sims i j) :=
  inferInstanceAs (Decidable (_ ∨ _ ∧ _))

/-- Ascending argsort of the similarity vector. -/
def argsortAsc (sims : List ℚ) : List Nat :=
  List.insertionSort (rankLE sims) (List.range sims.length)

/-- The ranked document indices retrieve returns:
np.argsort(similarities)[::-1][:top_k]. -/
def retrieveOrder (sims : List ℚ) (top_k : Nat) : List Nat :=
  (argsortAsc sims).reverse.take top_k

/-! ### Alert fan-out (src/core/drift_detector.py)

Each channel's network delivery is an external collaborator whose outcome
(clean HTTP/SMTP exchange or an exception, which raise_for_status also
turns into) is a `NetOutcome`; the channel send functions catch it
internally and return a boolean (lines 86-111, 113-197, 199-291). -/

structure AlertConfig where
  webhook_url : Option String
  discord_webhook_url : Option String
  smtp_user : Option String
  smtp_password : Option String
  alert_email_to : Option String
deriving DecidableEq

inductive NetOutcome where
  | ok
  | err (msg : String)
deriving DecidableEq

/-- Translation of send_generic_webhook: False when unconfigured, then
True on a clean post and False when the try block raises. -/
def send_generic_webhook (cfg : AlertConfig) (net : NetOutcome) : Bool :=
  match cfg.webhook_url with
  | none => false
  | some _ => match net with | .ok => true | .err _ => false

/-- Translation of send_discord_alert (same shape on its own URL). -/
def send_discord_alert (cfg : AlertConfig) (net : NetOutcome) : Bool :=
  match cfg.discord_webhook_url with
  | none => false
  | some _ => match net with | .ok => true | .err _ => false

/-- Translation of send_email_alert: requires smtp_user, smtp_password and
alert_email_to all configured, then reports the SMTP exchange. -/
def send_email_alert (cfg : AlertConfig) (net : NetOutcome) : Bool :=
  match cfg.smtp_user, cfg.smtp_password, cfg.alert_email_to with
  | some _, some _, some _ => (match net with | .ok => true | .err _ => false)
  | _, _, _ => false

/-- Translation of send_all_alerts (lines 293-312): one recorded boolean
per channel, each computed from that channel's own send function. -/
def send_all_alerts (cfg : AlertConfig) (netW netD netE : NetOutcome) :
    List (String × Bool) :=
  [("webhook", send_generic_webhook cfg netW),
   ("discord", send_discord_alert cfg netD),
   ("email", send_email_alert cfg netE)]

/-- The drift_detected flag check_drift's payload carries: False for an
empty history (the "No runs found" payload), has_drifted otherwise. -/
def check_drift_detected (runs : List Run) (threshold : ℚ) : Bool :=
  (get_drift_analysis runs threshold).2.2

/-- Translation of process_run (lines 314-339): alerts fan out only when
drift_detected is true, else alert_results stays the empty dict. -/
def process_run (cfg : AlertConfig) (runs : List Run) (threshold : ℚ)
    (netW netD netE : NetOutcome) : Bool × List (String × Bool) :=
  let detected := check_drift_detected runs threshold
  (detected, if detected then send_all_alerts cfg netW netD netE else [])

/-! ### Helper lemmas -/

lemma startsWithChars_self (l : List Char) : startsWithChars l l = true := by
  induction l with
  | nil => rfl
  | cons a as ih => simp [startsWithChars, ih]

lemma hasSubChars_append_self (pre pat : List Char) :
    hasSubChars pat (pre ++ pat) = true := by
  induction pre with
  | nil =>
      cases pat with
      | nil => rfl
      | cons c cs => simp [hasSubChars, startsWithChars_self]
  | cons b bs ih => simp [hasSubChars, ih]

lemma pyContains_append (pre tail : String) :
    pyContains (pre ++ tail) tail = true := by
  unfold pyContains
  rw [String.data_append]
  exact hasSubChars_append_self pre.data tail.data

lemma pyMax_cons (a b : Run) (l : List Run) :
    pyMax a (b :: l) = pyMax (if b.accuracy > a.accuracy then b else a) l := rfl

lemma pyMax_mem (a : Run) (l : List Run) : pyMax a l ∈ a :: l := by
  induction l generalizing a with
  | nil => exact List.mem_cons_self _ _
  | cons b l ih =>
      rw [pyMax_cons]
      by_cases hb : b.accuracy > a.accuracy
      · rw [if_pos hb]
        rcases List.mem_cons.mp (ih b) with h | h
        · rw [h]; exact List.mem_cons_of_mem _ (List.mem_cons_self _ _)
        · exact List.mem_cons_of_mem _ (List.mem_cons_of_mem _ h)
      · rw [if_neg hb]
        rcases List.mem_cons.mp (ih a) with h | h
        · rw [h]; exact List.mem_cons_self _ _
        · exact List.mem_cons_of_mem _ (List.mem_cons_of_mem _ h)

lemma le_pyMax (a : Run) (l : List Run) :
    ∀ r ∈ a :: l, r.accuracy ≤ (pyMax a l).accuracy := by
  induction l generalizing a with
  | nil =>
      intro r hr
      rcases List.mem_cons.mp hr with h | h
      · subst h; exact le_refl _
      · exact absurd h (List.not_mem_nil r)
  | cons b l ih =>
      intro r hr
      rw [pyMax_cons]
      have hhead : a.accuracy ≤ (if b.accuracy > a.accuracy then b else a).accuracy ∧
          b.accuracy ≤ (if b.accuracy > a.accuracy then b else a).accuracy := by
        by_cases hb : b.accuracy > a.accuracy
        · rw [if_pos hb]; exact ⟨le_of_lt hb, le_refl _⟩
        · rw [if_neg hb]; exact ⟨le_refl _, le_of_not_lt hb⟩
      have htop : (if b.accuracy > a.accuracy then b else a).accuracy
          ≤ (pyMax (if b.accuracy > a.accuracy then b else a) l).accuracy :=
        ih _ _ (List.mem_cons_self _ _)
      rcases List.mem_cons.mp hr with h | h
      · subst h; exact le_trans hhead.1 htop
      · rcases List.mem_cons.mp h with h | h
        · subst h; exact le_trans hhead.2 htop
        · exact ih _ r (List.mem_cons_of_mem _ h)

lemma driftDrop_nonneg (runs : List Run) (d : ℚ) (h : driftDrop runs = some d) :
    0 ≤ d := by
  cases runs with
  | nil => simp [driftDrop] at h
  | cons latest rest =>
      simp only [driftDrop, Option.some.injEq] at h
      subst h
      have := le_pyMax latest rest latest (List.mem_cons_self _ _)
      linarith

/-! ### Claims about drift analysis -/

/-- C2 (amended): in get_drift_analysis the best run is the maximum-accuracy
run over the whole history including the latest run, and the drop equals
best.accuracy minus latest.accuracy; because the maximum ranges over a set
containing the latest run, the drop is always nonnegative (zero when the
latest run is the best), never negative. -/
theorem C2_best_and_drop (latest : Run) (rest : List Run) (threshold : ℚ) :
    (get_drift_analysis (latest :: rest) threshold).1 = some latest ∧
    (get_drift_analysis (latest :: rest) threshold).2.1 = some (pyMax latest rest) ∧
    pyMax latest rest ∈ latest :: rest ∧
    (∀ r ∈ latest :: rest, r.accuracy ≤ (pyMax latest rest).accuracy) ∧
    driftDrop (latest :: rest) = some ((pyMax latest rest).accuracy - latest.accuracy) ∧
    0 ≤ (pyMax latest rest).accuracy - latest.accuracy := by
  refine ⟨rfl, rfl, pyMax_mem latest rest, le_pyMax latest rest, rfl, ?_⟩
  have := le_pyMax latest rest latest (List.mem_cons_self _ _)
  linarith

/-- C2 (counterexample to the claim as stated): no run history makes
get_drift_analysis yield a negative drop, refuting the claimed existence of
a history with a negative drop. -/
theorem C2_counterexample :
    ¬ ∃ (runs : List Run) (d : ℚ), driftDrop runs = some d ∧ d < 0 := by
  rintro ⟨runs, d, hd, hneg⟩
  exact absurd hneg (not_lt.mpr (driftDrop_nonneg runs d hd))

/-- C5: has_drifted is exactly the strict comparison drop > threshold: a
drop equal to the threshold is not drift, a strictly larger drop is. -/
theorem C5_threshold_strict (latest : Run) (rest : List Run) (threshold : ℚ) :
    ((get_drift_analysis (latest :: rest) threshold).2.2 = true
        ↔ (pyMax latest rest).accuracy - latest.accuracy > threshold) ∧
    ((pyMax latest rest).accuracy - latest.accuracy = threshold →
        (get_drift_analysis (latest :: rest) threshold).2.2 = false) ∧
    ((pyMax latest rest).accuracy - latest.accuracy > threshold →
        (get_drift_analysis (latest :: rest) threshold).2.2 = true) := by
  refine ⟨by simp [get_drift_analysis], ?_, ?_⟩
  · intro h
    simp [get_drift_analysis, h]
  · intro h
    simp [get_drift_analysis, h]

/-! ### Claims about alert dispatch -/

/-- C9: process_run dispatches alerts only when drift is detected (the
empty-history case detects none), send_all_alerts records one boolean per
channel for all three channels, a channel whose delivery raises reports
false instead of propagating, and each channel's recorded outcome is
unaffected by the other channels' outcomes. -/
theorem C9_alert_gating_and_isolation (cfg : AlertConfig) (runs : List Run)
    (threshold : ℚ) (netW netD netE : NetOutcome) :
    (check_drift_detected runs threshold = false →
        (process_run cfg runs threshold netW netD netE).2 = []) ∧
    (process_run cfg [] threshold netW netD netE).2 = [] ∧
    (check_drift_detected runs threshold = true →
        (process_run cfg runs threshold netW netD netE).2.map Prod.fst
          = ["webhook", "discord", "email"]) ∧
    (∀ m, send_generic_webhook cfg (.err m) = false
        ∧ send_discord_alert cfg (.err m) = false
        ∧ send_email_alert cfg (.err m) = false) ∧
    (∀ nD nE, (send_all_alerts cfg netW netD netE)[0]?
        = (send_all_alerts cfg netW nD nE)[0]?) ∧
    (∀ nW nE, (send_all_alerts cfg netW netD netE)[1]?
        = (send_all_alerts cfg nW netD nE)[1]?) ∧
    (∀ nW nD, (send_all_alerts cfg netW netD netE)[2]?
        = (send_all_alerts cfg nW nD netE)[2]?) := by
  refine ⟨?_, ?_, ?_, ?_, ?_, ?_, ?_⟩
  · intro h; simp [process_run, h]
  · rfl
  · intro h; simp [process_run, h, send_all_alerts]
  · intro m
    refine ⟨?_, ?_, ?_⟩
    · unfold send_generic_webhook; cases cfg.webhook_url <;> rfl
    · unfold send_discord_alert; cases cfg.discord_webhook_url <;> rfl
    · unfold send_email_alert
      cases cfg.smtp_user <;> cases cfg.smtp_password <;> cases cfg.alert_email_to <;> rfl
  · intro nD nE; rfl
  · intro nW nE; rfl
  · intro nW nD; rfl

/-! ### Claims about the judge and the stored score -/

lemma score_answer_parsed_eq_coarse (oc : JudgeCallOutcome) :
    score_answer_parsed oc = score_answer (toJudgeOutcome oc) := by
  cases oc with
  | exn m => rfl
  | httpError status body => rfl
  | reply content p =>
      cases p with
      | notObject => rfl
      | object o =>
          obtain ⟨s, r⟩ := o
          cases s with
          | none => rfl
          | some v => cases v <;> rfl

/-- C8 (amended): score_answer is a total function of the judge call's
outcome and never propagates an exception; a reply that is malformed JSON,
not a JSON object, or whose score value float() cannot convert yields
score 0.0 with the raw offending payload inside the reasoning, and a
transport exception yields score 0.0 with the exception message as
reasoning, the single consumed outcome reflecting the single, unretried
judge call.  A reply that parses as a JSON object with a missing key,
however, defaults silently: a missing score key gives score 0.0 with the
reply's reasoning value (not the payload), and a missing reasoning key
gives the parsed score with an empty reasoning. -/
theorem C8_judge_parse_cases (m content : String) (o : JudgeReplyObject) :
    score_answer_parsed (.exn m) = (0, "Exception: " ++ m) ∧
    score_answer_parsed (.reply content .notObject)
        = (0, "Invalid JSON from judge: " ++ content) ∧
    pyContains (score_answer_parsed (.reply content .notObject)).2 content = true ∧
    (o.score = some .unfloatable →
        score_answer_parsed (.reply content (.object o))
          = (0, "Invalid JSON from judge: " ++ content)) ∧
    (o.score = none →
        score_answer_parsed (.reply content (.object o)) = (0, o.reasoning.getD "")) ∧
    (∀ q, o.score = some (.floatable q) →
        score_answer_parsed (.reply content (.object o)) = (q, o.reasoning.getD "")) := by
  refine ⟨rfl, rfl, pyContains_append "Invalid JSON from judge: " content, ?_, ?_, ?_⟩
  · intro h
    simp [score_answer_parsed, parse_judge_reply, h]
  · intro h
    simp [score_answer_parsed, parse_judge_reply, h]
  · intro q h
    simp [score_answer_parsed, parse_judge_reply, h]

/-- C8 (counterexample to the claim as stated): replies missing a required
key parse with silent defaults instead of the claimed zero-score-plus-raw-
payload result — a reply carrying only a reasoning returns that reasoning
with no trace of the raw payload, and a reply carrying only the score 0.9
returns score 0.9, not 0.0. -/
theorem C8_counterexample :
    score_answer_parsed (.reply "\x7b\x22reasoning\x22: \x22x\x22\x7d"
        (.object ⟨none, some "x"⟩)) = (0, "x") ∧
    pyContains (score_answer_parsed (.reply "\x7b\x22reasoning\x22: \x22x\x22\x7d"
        (.object ⟨none, some "x"⟩))).2 "\x7b\x22reasoning\x22: \x22x\x22\x7d" = false ∧
    score_answer_parsed (.reply "\x7b\x22score\x22: 0.9\x7d"
        (.object ⟨some (.floatable (9/10)), none⟩)) = (9/10, "") ∧
    (9 : ℚ)/10 ≠ 0 := by
  refine ⟨rfl, by decide, rfl, by norm_num⟩

lemma score_answer_bounds (judgeReply : String → JudgeOutcome)
    (hj : ∀ c s r, judgeReply c = .parsed s r → 0 ≤ s ∧ s ≤ 1) (c : String) :
    0 ≤ (score_answer (judgeReply c)).1 ∧ (score_answer (judgeReply c)).1 ≤ 1 := by
  cases h : judgeReply c with
  | exn m => exact ⟨le_refl 0, by show (0 : ℚ) ≤ 1; norm_num⟩
  | httpError status body => exact ⟨le_refl 0, by show (0 : ℚ) ≤ 1; norm_num⟩
  | parsed s r => exact hj c s r h
  | unparsable content => exact ⟨le_refl 0, by show (0 : ℚ) ≤ 1; norm_num⟩

lemma evalLoop_score_bounds (q : Question) (judge : String → ℚ × String)
    (attempts : Nat → AttemptOutcome)
    (hj : ∀ c, 0 ≤ (judge c).1 ∧ (judge c).1 ≤ 1) :
    ∀ fuel attempt retryCount last delays,
      0 ≤ (evalLoop q judge attempts fuel attempt retryCount last delays).result.score ∧
      (evalLoop q judge attempts fuel attempt retryCount last delays).result.score ≤ 1 := by
  intro fuel
  induction fuel with
  | zero =>
      intro attempt retryCount last delays
      exact ⟨le_refl 0, by show (0 : ℚ) ≤ 1; norm_num⟩
  | succ fuel ih =>
      intro attempt retryCount last delays
      cases hA : attempts attempt with
      | success content latency =>
          have hstep : evalLoop q judge attempts (fuel + 1) attempt retryCount last delays
              = { result := successResult q judge content latency retryCount
                  attemptsMade := attempt + 1, delays := delays
                  retry_count := retryCount } := by
            simp [evalLoop, hA]
          rw [hstep]
          exact hj content
      | failure ty msg =>
          by_cases hc : should_retry msg && decide (attempt < MAX_RETRIES)
          · have hstep : evalLoop q judge attempts (fuel + 1) attempt retryCount last delays
                = evalLoop q judge attempts fuel (attempt + 1) (retryCount + 1)
                  (some (ty, msg)) (delays ++ [BACKOFF_DELAYS.getD attempt 0]) := by
              simp [evalLoop, hA, hc]
            rw [hstep]
            exact ih (attempt + 1) (retryCount + 1) (some (ty, msg))
              (delays ++ [BACKOFF_DELAYS.getD attempt 0])
          · have hstep : evalLoop q judge attempts (fuel + 1) attempt retryCount last delays
                = { result := failResult q retryCount (some (ty, msg))
                    attemptsMade := attempt + 1, delays := delays
                    retry_count := retryCount } := by
              simp only [evalLoop, hA]
              rw [if_neg (by simpa using hc)]
            rw [hstep]
            exact ⟨le_refl 0, by show (0 : ℚ) ≤ 1; norm_num⟩

/-- C1 (amended): evaluate_question stores the judged score verbatim with
no clamping, and every non-success path stores 0.0; hence every produced
EvaluationResult has score in 0..1 exactly on the assumption that every
numeric score the judge's JSON reply carries is already in 0..1. -/
theorem C1_score_range_iff_judge_in_range (q : Question)
    (encodeImage : String → Option String) (attempts : Nat → AttemptOutcome)
    (judgeReply : String → JudgeOutcome)
    (hj : ∀ c s r, judgeReply c = .parsed s r → 0 ≤ s ∧ s ≤ 1) :
    0 ≤ (evaluate_question q encodeImage attempts judgeReply).result.score ∧
    (evaluate_question q encodeImage attempts judgeReply).result.score ≤ 1 := by
  have hb := score_answer_bounds judgeReply hj
  cases hi : q.image_path with
  | none =>
      have hq : evaluate_question q encodeImage attempts judgeReply
          = evalLoop q (fun c => score_answer (judgeReply c)) attempts
              (MAX_RETRIES + 1) 0 0 none [] := by
        simp [evaluate_question, hi]
      rw [hq]
      exact evalLoop_score_bounds q _ attempts hb _ _ _ _ _
  | some p =>
      cases he : encodeImage p with
      | none =>
          have hq : (evaluate_question q encodeImage attempts judgeReply).result.score = 0 := by
            simp [evaluate_question, hi, he]
          rw [hq]
          exact ⟨le_refl 0, by norm_num⟩
      | some enc =>
          have hq : evaluate_question q encodeImage attempts judgeReply
              = evalLoop q (fun c => score_answer (judgeReply c)) attempts
                  (MAX_RETRIES + 1) 0 0 none [] := by
            simp [evaluate_question, hi, he]
          rw [hq]
          exact evalLoop_score_bounds q _ attempts hb _ _ _ _ _

/-- C1 (witness): the range theorem applied to a concrete run whose judge
reply parses to score 1. -/
theorem C1_witness :
    0 ≤ (evaluate_question ⟨"1", "general", "2+2?", "4", none⟩ (fun _ => none)
        (fun _ => .success "4" 1) (fun _ => .parsed 1 "exact match")).result.score ∧
    (evaluate_question ⟨"1", "general", "2+2?", "4", none⟩ (fun _ => none)
        (fun _ => .success "4" 1) (fun _ => .parsed 1 "exact match")).result.score ≤ 1 := by
  refine C1_score_range_iff_judge_in_range _ _ _ _ ?_
  intro c s r h
  injection h with h1 h2
  subst h1
  exact ⟨by norm_num, le_refl 1⟩

/-- C1 (counterexample to the claim as stated): a judge JSON reply whose
numeric score is 2 flows unclamped into the stored EvaluationResult, whose
score is then outside 0..1. -/
theorem C1_counterexample :
    (evaluate_question ⟨"1", "general", "2+2?", "4", none⟩ (fun _ => none)
        (fun _ => .success "4" 1) (fun _ => .parsed 2 "judge overshoot")).result.score = 2 ∧
    ¬ (evaluate_question ⟨"1", "general", "2+2?", "4", none⟩ (fun _ => none)
        (fun _ => .success "4" 1) (fun _ => .parsed 2 "judge overshoot")).result.score ≤ 1 := by
  constructor
  · rfl
  · rw [show (evaluate_question ⟨"1", "general", "2+2?", "4", none⟩ (fun _ => none)
        (fun _ => .success "4" 1) (fun _ => .parsed 2 "judge overshoot")).result.score
        = 2 from rfl]
    norm_num

/-! ### Claims about retry behaviour of evaluate_question -/

lemma evalLoop_attemptsMade_ge (q : Question) (judge : String → ℚ × String)
    (attempts : Nat → AttemptOutcome) :
    ∀ fuel attempt retryCount last delays,
      attempt ≤ (evalLoop q judge attempts fuel attempt retryCount last delays).attemptsMade := by
  intro fuel
  induction fuel with
  | zero => intro attempt retryCount last delays; exact le_refl _
  | succ fuel ih =>
      intro attempt retryCount last delays
      cases hA : attempts attempt with
      | success content latency =>
          have hstep : evalLoop q judge attempts (fuel + 1) attempt retryCount last delays
              = { result := successResult q judge content latency retryCount
                  attemptsMade := attempt + 1, delays := delays
                  retry_count := retryCount } := by
            simp [evalLoop, hA]
          rw [hstep]
          exact Nat.le_succ _
      | failure ty msg =>
          by_cases hc : should_retry msg && decide (attempt < MAX_RETRIES)
          · have hstep : evalLoop q judge attempts (fuel + 1) attempt retryCount last delays
                = evalLoop q judge attempts fuel (attempt + 1) (retryCount + 1)
                  (some (ty, msg)) (delays ++ [BACKOFF_DELAYS.getD attempt 0]) := by
              simp [evalLoop, hA, hc]
            rw [hstep]
            exact le_trans (Nat.le_succ _) (ih (attempt + 1) _ _ _)
          · have hstep : evalLoop q judge attempts (fuel + 1) attempt retryCount last delays
                = { result := failResult q retryCount (some (ty, msg))
                    attemptsMade := attempt + 1, delays := delays
                    retry_count := retryCount } := by
              simp only [evalLoop, hA]
              rw [if_neg (by simpa using hc)]
            rw [hstep]
            exact Nat.le_succ _

lemma evalLoop_attemptsMade_succ_ge (q : Question) (judge : String → ℚ × String)
    (attempts : Nat → AttemptOutcome) (fuel attempt retryCount : Nat)
    (last : Option (String × String)) (delays : List Nat) :
    attempt + 1
      ≤ (evalLoop q judge attempts (fuel + 1) attempt retryCount last delays).attemptsMade := by
  cases hA : attempts attempt with
  | success content latency =>
      have hstep : evalLoop q judge attempts (fuel + 1) attempt retryCount last delays
          = { result := successResult q judge content latency retryCount
              attemptsMade := attempt + 1, delays := delays
              retry_count := retryCount } := by
        simp [evalLoop, hA]
      rw [hstep]
  | failure ty msg =>
      by_cases hc : should_retry msg && decide (attempt < MAX_RETRIES)
      · have hstep : evalLoop q judge attempts (fuel + 1) attempt retryCount last delays
            = evalLoop q judge attempts fuel (attempt + 1) (retryCount + 1)
              (some (ty, msg)) (delays ++ [BACKOFF_DELAYS.getD attempt 0]) := by
          simp [evalLoop, hA, hc]
        rw [hstep]
        exact evalLoop_attemptsMade_ge q judge attempts fuel (attempt + 1) _ _ _
      · have hstep : evalLoop q judge attempts (fuel + 1) attempt retryCount last delays
            = { result := failResult q retryCount (some (ty, msg))
                attemptsMade := attempt + 1, delays := delays
                retry_count := retryCount } := by
          simp only [evalLoop, hA]
          rw [if_neg (by simpa using hc)]
        rw [hstep]

lemma evaluate_question_no_image (q : Question)
    (encodeImage : String → Option String) (attempts : Nat → AttemptOutcome)
    (judgeReply : String → JudgeOutcome) (hq : q.image_path = none) :
    evaluate_question q encodeImage attempts judgeReply
      = evalLoop q (fun c => score_answer (judgeReply c)) attempts
          (MAX_RETRIES + 1) 0 0 none [] := by
  simp [evaluate_question, hq]

/-- C4: when every model call fails with a retryable (timeout or
connection) error, evaluate_question performs exactly three attempts with
backoff sleeps of 5 and then 10 seconds, ends with retry_count 2, and
returns the failure result: no response, score 0.0, no latency, and a
reasoning naming the two retries and the final exception.  The
attemptsMade count being 3 is the absence of any fourth call. -/
theorem C4_retry_bound (q : Question) (encodeImage : String → Option String)
    (attempts : Nat → AttemptOutcome) (judgeReply : String → JudgeOutcome)
    (ty msg : Nat → String)
    (hq : q.image_path = none)
    (hfail : ∀ i, attempts i = .failure (ty i) (msg i))
    (hretry : ∀ i, should_retry (msg i) = true) :
    evaluate_question q encodeImage attempts judgeReply
      = { result :=
            { qid := q.qid, category := q.category, input := q.input
              expected_output := q.expected_output
              model_response := none
              score := 0
              reasoning := "Failed after 2 retries: " ++ ty 2 ++ ": " ++ msg 2
              latency := none
              image_path := none }
          attemptsMade := 3, delays := [5, 10], retry_count := 2 } := by
  rw [evaluate_question_no_image q encodeImage attempts judgeReply hq]
  have h1 : evalLoop q (fun c => score_answer (judgeReply c)) attempts 3 0 0 none []
      = evalLoop q (fun c => score_answer (judgeReply c)) attempts 2 1 1
          (some (ty 0, msg 0)) [5] := by
    simp [evalLoop, hfail 0, hretry 0, MAX_RETRIES, BACKOFF_DELAYS]
  have h2 : evalLoop q (fun c => score_answer (judgeReply c)) attempts 2 1 1
        (some (ty 0, msg 0)) [5]
      = evalLoop q (fun c => score_answer (judgeReply c)) attempts 1 2 2
          (some (ty 1, msg 1)) [5, 10] := by
    simp [evalLoop, hfail 1, hretry 1, MAX_RETRIES, BACKOFF_DELAYS]
  have h3 : evalLoop q (fun c => score_answer (judgeReply c)) attempts 1 2 2
        (some (ty 1, msg 1)) [5, 10]
      = { result := failResult q 2 (some (ty 2, msg 2))
          attemptsMade := 3, delays := [5, 10], retry_count := 2 } := by
    have hstop : (should_retry (msg 2) && decide (2 < MAX_RETRIES)) = false := by
      simp [MAX_RETRIES]
    simp only [evalLoop, hfail 2]
    rw [if_neg (by simp [hstop])]
  rw [show (MAX_RETRIES + 1 : Nat) = 3 from rfl, h1, h2, h3]
  have hpre : ("Failed after " ++ toString (2 : Nat) ++ " retries: " : String)
      = "Failed after 2 retries: " := by decide
  simp [failResult, hq, hpre]

/-- C4 (witness): the retry-bound theorem at a model call that fails with
a connection timeout on every attempt. -/
theorem C4_witness :
    evaluate_question ⟨"1", "general", "2+2?", "4", none⟩ (fun _ => none)
        (fun _ => .failure "APIConnectionError" "Connection timeout")
        (fun _ => .parsed 1 "unused")
      = { result :=
            { qid := "1", category := "general", input := "2+2?"
              expected_output := "4"
              model_response := none
              score := 0
              reasoning := "Failed after 2 retries: " ++ "APIConnectionError"
                ++ ": " ++ "Connection timeout"
              latency := none
              image_path := none }
          attemptsMade := 3, delays := [5, 10], retry_count := 2 } := by
  refine C4_retry_bound ⟨"1", "general", "2+2?", "4", none⟩ (fun _ => none)
    (fun _ => .failure "APIConnectionError" "Connection timeout")
    (fun _ => .parsed 1 "unused")
    (fun _ => "APIConnectionError") (fun _ => "Connection timeout")
    rfl (fun _ => rfl) ?_
  intro i
  show should_retry "Connection timeout" = true
  decide

/-- C7 (amended): a model call whose HTTP response has a non-success
status surfaces as an SDK exception; when its rendered message contains
neither "timeout" nor "connection", evaluate_question makes exactly one
attempt, sleeps no backoff, and returns immediately with score 0.0 and a
reasoning embedding the exception's type and its full message (for SDK
status errors that message carries the status code; no truncation is
applied by evaluate_question). -/
theorem C7_bad_status_single_attempt (q : Question)
    (encodeImage : String → Option String) (attempts : Nat → AttemptOutcome)
    (judgeReply : String → JudgeOutcome) (ty msg : String)
    (hq : q.image_path = none)
    (h0 : attempts 0 = .failure ty msg)
    (hnr : should_retry msg = false) :
    evaluate_question q encodeImage attempts judgeReply
      = { result :=
            { qid := q.qid, category := q.category, input := q.input
              expected_output := q.expected_output
              model_response := none
              score := 0
              reasoning := "Failed after 0 retries: " ++ ty ++ ": " ++ msg
              latency := none
              image_path := none }
          attemptsMade := 1, delays := [], retry_count := 0 } := by
  rw [evaluate_question_no_image q encodeImage attempts judgeReply hq]
  have h1 : evalLoop q (fun c => score_answer (judgeReply c)) attempts 3 0 0 none []
      = { result := failResult q 0 (some (ty, msg))
          attemptsMade := 1, delays := [], retry_count := 0 } := by
    simp only [evalLoop, h0]
    rw [if_neg (by simp [hnr])]
  rw [show (MAX_RETRIES + 1 : Nat) = 3 from rfl, h1]
  have hpre : ("Failed after " ++ toString (0 : Nat) ++ " retries: " : String)
      = "Failed after 0 retries: " := by decide
  simp [failResult, hq, hpre]

/-- C7 (witness): the single-attempt theorem at a concrete HTTP 500
surfaced by the SDK with a plain internal-error message. -/
theorem C7_witness :
    evaluate_question ⟨"1", "general", "2+2?", "4", none⟩ (fun _ => none)
        (fun _ => .failure "InternalServerError" "Error code: 500 - internal error")
        (fun _ => .parsed 1 "unused")
      = { result :=
            { qid := "1", category := "general", input := "2+2?"
              expected_output := "4"
              model_response := none
              score := 0
              reasoning := "Failed after 0 retries: " ++ "InternalServerError"
                ++ ": " ++ "Error code: 500 - internal error"
              latency := none
              image_path := none }
          attemptsMade := 1, delays := [], retry_count := 0 } :=
  C7_bad_status_single_attempt ⟨"1", "general", "2+2?", "4", none⟩ (fun _ => none)
    (fun _ => .failure "InternalServerError" "Error code: 500 - internal error")
    (fun _ => .parsed 1 "unused")
    "InternalServerError" "Error code: 500 - internal error"
    rfl rfl (by decide)

/-- C7 (counterexample to the claim as stated): an HTTP 500 response
whose body mentions a connection problem is retried — the second model
call happens and a backoff sleep runs — so a single HTTP 500 does not
always yield exactly one attempt, and no separate status-code branch
exists in evaluate_question. -/
theorem C7_counterexample :
    (evaluate_question ⟨"1", "general", "2+2?", "4", none⟩ (fun _ => none)
        (fun n => if n = 0 then
            .failure "InternalServerError" "Error code: 500 - connection reset by peer"
          else .success "4" 1)
        (fun _ => .parsed 1 "ok")).attemptsMade = 2 ∧
    (evaluate_question ⟨"1", "general", "2+2?", "4", none⟩ (fun _ => none)
        (fun n => if n = 0 then
            .failure "InternalServerError" "Error code: 500 - connection reset by peer"
          else .success "4" 1)
        (fun _ => .parsed 1 "ok")).delays = [5] := by
  constructor
  · decide
  · decide

/-- C10: an exception raised by the model call is classified as
retryable exactly when the lowercased message contains "timeout" or
"connection", whatever the exception's type string: a retryable failure
of the first call is followed by a second call, and a non-retryable one
aborts after the single call with the zero-score failure result. -/
theorem C10_retry_classification (q : Question)
    (encodeImage : String → Option String) (attempts : Nat → AttemptOutcome)
    (judgeReply : String → JudgeOutcome) (ty msg : String)
    (hq : q.image_path = none)
    (h0 : attempts 0 = .failure ty msg) :
    should_retry msg
        = (pyContains (pyLower msg) "timeout" || pyContains (pyLower msg) "connection") ∧
    (should_retry msg = true →
        2 ≤ (evaluate_question q encodeImage attempts judgeReply).attemptsMade) ∧
    (should_retry msg = false →
        (evaluate_question q encodeImage attempts judgeReply).attemptsMade = 1 ∧
        (evaluate_question q encodeImage attempts judgeReply).result.score = 0 ∧
        (evaluate_question q encodeImage attempts judgeReply).result.model_response = none) := by
  refine ⟨rfl, ?_, ?_⟩
  · intro hr
    rw [evaluate_question_no_image q encodeImage attempts judgeReply hq]
    have h1 : evalLoop q (fun c => score_answer (judgeReply c)) attempts
          (MAX_RETRIES + 1) 0 0 none []
        = evalLoop q (fun c => score_answer (judgeReply c)) attempts
            (MAX_RETRIES - 1 + 1) 1 1 (some (ty, msg)) [5] := by
      simp [evalLoop, h0, hr, MAX_RETRIES, BACKOFF_DELAYS]
    rw [h1]
    exact evalLoop_attemptsMade_succ_ge q _ attempts _ 1 1 _ _
  · intro hr
    have h1 := C7_bad_status_single_attempt q encodeImage attempts judgeReply ty msg hq h0 hr
    rw [h1]
    exact ⟨rfl, rfl, rfl⟩

/-- C10 (witness): the classification theorem at a connection-refused
message, an input on which both classifier directions are concrete. -/
theorem C10_witness :
    should_retry "connection refused"
        = (pyContains (pyLower "connection refused") "timeout"
            || pyContains (pyLower "connection refused") "connection") ∧
    (should_retry "connection refused" = true →
        2 ≤ (evaluate_question ⟨"1", "general", "2+2?", "4", none⟩ (fun _ => none)
            (fun _ => .failure "APIConnectionError" "connection refused")
            (fun _ => .parsed 1 "unused")).attemptsMade) ∧
    (should_retry "connection refused" = false →
        (evaluate_question ⟨"1", "general", "2+2?", "4", none⟩ (fun _ => none)
            (fun _ => .failure "APIConnectionError" "connection refused")
            (fun _ => .parsed 1 "unused")).attemptsMade = 1 ∧
        (evaluate_question ⟨"1", "general", "2+2?", "4", none⟩ (fun _ => none)
            (fun _ => .failure "APIConnectionError" "connection refused")
            (fun _ => .parsed 1 "unused")).result.score = 0 ∧
        (evaluate_question ⟨"1", "general", "2+2?", "4", none⟩ (fun _ => none)
            (fun _ => .failure "APIConnectionError" "connection refused")
            (fun _ => .parsed 1 "unused")).result.model_response = none) :=
  C10_retry_classification ⟨"1", "general", "2+2?", "4", none⟩ (fun _ => none)
    (fun _ => .failure "APIConnectionError" "connection refused")
    (fun _ => .parsed 1 "unused")
    "APIConnectionError" "connection refused" rfl rfl

/-! ### Claims about retrieval metrics -/

lemma mrrLoop_eq_findIdx (relevant : Finset ℤ) (ids : List ℤ) :
    ∀ k, mrrLoop relevant ids k
      = (match List.findIdx? (fun c => decide (c ∈ relevant)) ids k with
         | none => (0 : ℚ)
         | some rank => 1 / (rank : ℚ)) := by
  induction ids with
  | nil => intro k; simp [mrrLoop, List.findIdx?]
  | cons cid rest ih =>
      intro k
      rw [List.findIdx?_cons]
      by_cases hc : cid ∈ relevant
      · simp [mrrLoop, hc]
      · simp only [mrrLoop, hc, if_false, decide_eq_true_eq]
        exact ih (k + 1)

/-- C3 (amended): evaluate_retrieval returns the claimed set-theoretic
formulas with each metric rounded to four decimal places — precision as
tp/k, recall as tp over the relevant-set size (0 when that set is empty),
f1 as the harmonic mean (0 when precision + recall is 0), mrr as the
reciprocal of the 1-based rank of the first retrieved id in the relevant
set (0 when none is), and the mean similarity — and on the concrete
instance R equal to the ids 1 and 2, top_k 5, retrieved ids 2,3,4,5,6 the
values are 0.2, 0.5, 0.2857 and 1.0. -/
theorem C3_retrieval_metric_formulas (retrieved : List (ℤ × ℚ))
    (relevant_chunk_ids : List ℤ) (top_k : Nat) (hk : 0 < top_k) :
    (evaluate_retrieval retrieved relevant_chunk_ids top_k).precision_at_k
        = round4 (((relevant_chunk_ids.toFinset
            ∩ (retrieved.map Prod.fst).toFinset).card : ℚ) / (top_k : ℚ)) ∧
    (evaluate_retrieval retrieved relevant_chunk_ids top_k).recall_at_k
        = (if relevant_chunk_ids.toFinset = ∅ then 0
           else round4 (((relevant_chunk_ids.toFinset
              ∩ (retrieved.map Prod.fst).toFinset).card : ℚ)
              / (relevant_chunk_ids.toFinset.card : ℚ))) ∧
    (evaluate_retrieval retrieved relevant_chunk_ids top_k).mrr
        = (match List.findIdx?
              (fun c => decide (c ∈ relevant_chunk_ids.toFinset))
              (retrieved.map Prod.fst) 1 with
           | none => (0 : ℚ)
           | some rank => round4 (1 / (rank : ℚ))) ∧
    (evaluate_retrieval retrieved relevant_chunk_ids top_k).avg_similarity_score
        = (if retrieved = [] then 0
           else round4 ((retrieved.map Prod.snd).sum / (retrieved.length : ℚ))) ∧
    ((evaluate_retrieval [(2, 1/2), (3, 1/2), (4, 1/2), (5, 1/2), (6, 1/2)]
        [1, 2] 5).precision_at_k = 1/5 ∧
     (evaluate_retrieval [(2, 1/2), (3, 1/2), (4, 1/2), (5, 1/2), (6, 1/2)]
        [1, 2] 5).recall_at_k = 1/2 ∧
     (evaluate_retrieval [(2, 1/2), (3, 1/2), (4, 1/2), (5, 1/2), (6, 1/2)]
        [1, 2] 5).f1_at_k = 2857/10000 ∧
     (evaluate_retrieval [(2, 1/2), (3, 1/2), (4, 1/2), (5, 1/2), (6, 1/2)]
        [1, 2] 5).mrr = 1) := by
  refine ⟨?_, ?_, ?_, ?_, ?_, ?_, ?_, ?_⟩
  · simp [evaluate_retrieval, hk]
  · by_cases hR : relevant_chunk_ids.toFinset = ∅
    · have hcard : relevant_chunk_ids.toFinset.card = 0 := by simp [hR]
      simp only [evaluate_retrieval, hR, hcard, round4, if_true, if_false]
      norm_num
    · have hcard : 0 < relevant_chunk_ids.toFinset.card :=
        Finset.card_pos.mpr (Finset.nonempty_iff_ne_empty.mpr hR)
      simp [evaluate_retrieval, hR, hcard]
  · rw [show (evaluate_retrieval retrieved relevant_chunk_ids top_k).mrr
        = round4 (mrrLoop relevant_chunk_ids.toFinset (retrieved.map Prod.fst) 1)
        from rfl]
    rw [mrrLoop_eq_findIdx]
    cases List.findIdx? (fun c => decide (c ∈ relevant_chunk_ids.toFinset))
        (retrieved.map Prod.fst) 1 with
    | none => norm_num [round4]
    | some rank => rfl
  · by_cases hr : retrieved = []
    · subst hr
      norm_num [evaluate_retrieval, round4]
    · have hl : 0 < retrieved.length := List.length_pos.mpr hr
      simp [evaluate_retrieval, hr, hl]
  · have htp : ((([1, 2] : List ℤ).toFinset)
        ∩ ((([(2, (1:ℚ)/2), (3, 1/2), (4, 1/2), (5, 1/2), (6, 1/2)]).map
            Prod.fst).toFinset)).card = 1 := by decide
    simp only [evaluate_retrieval]
    rw [htp]
    norm_num [round4]
  · have htp : ((([1, 2] : List ℤ).toFinset)
        ∩ ((([(2, (1:ℚ)/2), (3, 1/2), (4, 1/2), (5, 1/2), (6, 1/2)]).map
            Prod.fst).toFinset)).card = 1 := by decide
    simp only [evaluate_retrieval]
    rw [htp]
    norm_num [round4]
  · have htp : ((([1, 2] : List ℤ).toFinset)
        ∩ ((([(2, (1:ℚ)/2), (3, 1/2), (4, 1/2), (5, 1/2), (6, 1/2)]).map
            Prod.fst).toFinset)).card = 1 := by decide
    simp only [evaluate_retrieval]
    rw [htp]
    norm_num [round4]
  · simp only [evaluate_retrieval, mrrLoop]
    norm_num [round4]

/-- C3 (witness): the formulas theorem applied at the concrete instance
of the claim. -/
theorem C3_witness :
    (evaluate_retrieval [(2, 1/2), (3, 1/2), (4, 1/2), (5, 1/2), (6, 1/2)]
        [1, 2] 5).precision_at_k
      = round4 ((([1, 2].toFinset
          ∩ (([(2, 1/2), (3, 1/2), (4, 1/2), (5, 1/2), (6, 1/2)].map
              (Prod.fst (α := ℤ) (β := ℚ))).toFinset)).card : ℚ) / (5 : ℚ)) := by
  exact (C3_retrieval_metric_formulas
    [(2, 1/2), (3, 1/2), (4, 1/2), (5, 1/2), (6, 1/2)] [1, 2] 5 (by decide)).1

/-- C3 (counterexample to the claim as stated): with one relevant id among
three retrieved, the stored precision is the rounded 0.3333, not the exact
1/3 the unrounded formula gives. -/
theorem C3_counterexample :
    (evaluate_retrieval [(1, 1/2), (2, 1/2), (3, 1/2)] [1] 3).precision_at_k
        = 3333/10000 ∧
    (evaluate_retrieval [(1, 1/2), (2, 1/2), (3, 1/2)] [1] 3).precision_at_k
        ≠ 1/3 := by
  have htp : ((([1] : List ℤ).toFinset)
      ∩ ((([(1, (1:ℚ)/2), (2, 1/2), (3, 1/2)]).map Prod.fst).toFinset)).card = 1 := by
    decide
  constructor
  · simp only [evaluate_retrieval]
    rw [htp]
    norm_num [round4]
  · simp only [evaluate_retrieval]
    rw [htp]
    norm_num [round4]

/-! ### Claims about retrieval ranking -/

instance (sims : List ℚ) : IsTotal Nat (rankLE sims) :=
  ⟨fun i j => by
    rcases lt_trichotomy (sims.getD i 0) (sims.getD j 0) with h | h | h
    · exact Or.inl (Or.inl h)
    · rcases Nat.le_total i j with hij | hij
      · exact Or.inl (Or.inr ⟨h, hij⟩)
      · exact Or.inr (Or.inr ⟨h.symm, hij⟩)
    · exact Or.inr (Or.inl h)⟩

instance (sims : List ℚ) : IsTrans Nat (rankLE sims) :=
  ⟨fun a b c hab hbc => by
    rcases hab with h1 | ⟨e1, l1⟩
    · rcases hbc with h2 | ⟨e2, l2⟩
      · exact Or.inl (lt_trans h1 h2)
      · exact Or.inl (e2 ▸ h1)
    · rcases hbc with h2 | ⟨e2, l2⟩
      · exact Or.inl (e1 ▸ h2)
      · exact Or.inr ⟨e1.trans e2, le_trans l1 l2⟩⟩

/-- C6 (amended): retrieve ranks documents by non-increasing similarity,
and two documents of equal similarity appear with the LATER corpus index
first (the ascending argsort is reversed, which flips the tie order); the
ranked list is duplicate-free, within the corpus bounds, and of length
min top_k corpus-size. -/
theorem C6_ranking_order (sims : List ℚ) (top_k : Nat) :
    (retrieveOrder sims top_k).Pairwise (fun i j =>
        sims.getD j 0 < sims.getD i 0
          ∨ (sims.getD i 0 = sims.getD j 0 ∧ j < i)) ∧
    (retrieveOrder sims top_k).Nodup ∧
    (∀ i ∈ retrieveOrder sims top_k, i < sims.length) ∧
    (retrieveOrder sims top_k).length = min top_k sims.length := by
  have hs : (argsortAsc sims).Pairwise (rankLE sims) :=
    List.sorted_insertionSort (rankLE sims) (List.range sims.length)
  have hperm : (argsortAsc sims).Perm (List.range sims.length) :=
    List.perm_insertionSort (rankLE sims) (List.range sims.length)
  have hnd : (argsortAsc sims).Nodup :=
    List.Perm.nodup hperm.symm (List.nodup_range sims.length)
  have hndrev : (argsortAsc sims).reverse.Nodup := List.nodup_reverse.mpr hnd
  have hrev : (argsortAsc sims).reverse.Pairwise (fun i j => rankLE sims j i) :=
    List.pairwise_reverse.mpr hs
  have hcomb := List.Pairwise.and hrev hndrev
  have himp : (argsortAsc sims).reverse.Pairwise (fun i j =>
      sims.getD j 0 < sims.getD i 0
        ∨ (sims.getD i 0 = sims.getD j 0 ∧ j < i)) := by
    refine hcomb.imp ?_
    rintro a b ⟨hba, hne⟩
    rcases hba with h | ⟨he, hle⟩
    · exact Or.inl h
    · exact Or.inr ⟨he.symm, lt_of_le_of_ne hle (fun hc => hne hc.symm)⟩
  refine ⟨?_, ?_, ?_, ?_⟩
  · exact List.Pairwise.sublist (List.take_sublist top_k _) himp
  · exact List.Nodup.sublist (List.take_sublist top_k _) hndrev
  · intro i hi
    have h1 : i ∈ (argsortAsc sims).reverse :=
      (List.take_sublist top_k _).subset hi
    have h2 : i ∈ argsortAsc sims := List.mem_reverse.mp h1
    have h3 : i ∈ List.range sims.length := hperm.subset h2
    exact List.mem_range.mp h3
  · have hlen : (argsortAsc sims).reverse.length = sims.length := by
      rw [List.length_reverse]
      exact hperm.length_eq.trans (List.length_range sims.length)
    rw [retrieveOrder, List.length_take, hlen]

/-- C6 (counterexample to the claim as stated): two documents with equal
similarity are returned with the later corpus index first, not in original
corpus order. -/
theorem C6_counterexample :
    retrieveOrder [3, 3, 7] 3 = [2, 1, 0] ∧
    retrieveOrder [3, 3, 7] 3 ≠ [2, 0, 1] := by
  constructor
  · decide
  · decide

end EvalDashboard
